import Mathlib

/-!
Shallow embedding of the session manager and the agent-to-agent (A2A)
coordination protocol of the medresearch_agent repository
(src/medresearch_agent/utils/session_manager.py and
src/medresearch_agent/utils/a2a_protocol.py), together with theorems
settling the specification claims about them.

Modelling conventions:
* Python `str` is `String`, `int` is `Int`, `Optional[T]` is `Option T`.
* Opaque JSON-serialisable dictionaries (payloads, configs, result blobs)
  are modelled as association lists `Dict := List (String × String)`;
  their internal structure is irrelevant to every claim.
* `datetime.now().isoformat()` is modelled by passing the produced string
  explicitly; a Python method containing two `datetime.now()` calls takes
  two time parameters, in the order of the calls.
* Python dicts used as keyed stores (`SessionManager.sessions`, the JSON
  files on disk) are association lists with insert-or-replace update.
* In-place mutation of a shared object (e.g. `send_message` setting
  `correlation_id` after the message was already appended to the log and
  the queue: all three are the same Python object) is modelled by applying
  the update first and storing the updated value everywhere.
-/

/-- Opaque JSON-like dictionary (payloads, configs, result blobs). -/
abbrev Dict := List (String × String)

/-- Lookup in a Python-dict-like association list. -/
def dictGet {α : Type} (l : List (String × α)) (k : String) : Option α :=
  match l with
  | [] => none
  | (k', v) :: rest => if k' = k then some v else dictGet rest k

/-- Insert-or-replace in a Python-dict-like association list
(replacement keeps the key's position, like a Python dict). -/
def dictSet {α : Type} (l : List (String × α)) (k : String) (v : α) :
    List (String × α) :=
  match l with
  | [] => [(k, v)]
  | (k', v') :: rest =>
    if k' = k then (k', v) :: rest else (k', v') :: dictSet rest k v

/-- `ResearchSession` dataclass (session_manager.py).  `analyzed_papers`
is a plain list because `__post_init__` replaces `None` by `[]`, so a
constructed session never holds `None` there. -/
structure ResearchSession where
  session_id : String
  query : String
  status : String
  stage : String
  created_at : String
  updated_at : String
  papers_found : Int
  papers_analyzed : Int
  current_paper_index : Int
  search_results : Option Dict
  analyzed_papers : List Dict
  drug_interactions : Option Dict
  synthesis_results : Option Dict
  report : Option String
  config : Option Dict
  deriving DecidableEq, Repr

/-- The dictionary form of a session, as stored in the per-session JSON
file.  Optional (defaulted) dataclass fields are `Option`-valued so that
an absent key is representable; for the `Optional[...]` fields of the
dataclass an absent key and a key present with JSON `null` produce the
same `cls(**data)` result, so the model identifies them. -/
structure SessionDict where
  session_id : String
  query : String
  status : String
  stage : String
  created_at : String
  updated_at : String
  papers_found : Option Int
  papers_analyzed : Option Int
  current_paper_index : Option Int
  search_results : Option Dict
  analyzed_papers : Option (List Dict)
  drug_interactions : Option Dict
  synthesis_results : Option Dict
  report : Option String
  config : Option Dict
  deriving DecidableEq, Repr

/-- `ResearchSession.to_dict` (`asdict(self)`): every field becomes a
present key. -/
def ResearchSession.to_dict (s : ResearchSession) : SessionDict :=
  { session_id := s.session_id
    query := s.query
    status := s.status
    stage := s.stage
    created_at := s.created_at
    updated_at := s.updated_at
    papers_found := some s.papers_found
    papers_analyzed := some s.papers_analyzed
    current_paper_index := some s.current_paper_index
    search_results := s.search_results
    analyzed_papers := some s.analyzed_papers
    drug_interactions := s.drug_interactions
    synthesis_results := s.synthesis_results
    report := s.report
    config := s.config }

/-- `ResearchSession.from_dict` (`cls(**data)`): absent keys take the
dataclass defaults; `__post_init__` turns a missing/`None`
`analyzed_papers` into `[]`. -/
def ResearchSession.from_dict (d : SessionDict) : ResearchSession :=
  { session_id := d.session_id
    query := d.query
    status := d.status
    stage := d.stage
    created_at := d.created_at
    updated_at := d.updated_at
    papers_found := d.papers_found.getD 0
    papers_analyzed := d.papers_analyzed.getD 0
    current_paper_index := d.current_paper_index.getD 0
    search_results := d.search_results
    analyzed_papers := d.analyzed_papers.getD []
    drug_interactions := d.drug_interactions
    synthesis_results := d.synthesis_results
    report := d.report
    config := d.config }

/-- `SessionManager` state: the in-memory cache `sessions` and the
per-session JSON files of the storage directory (`disk`), keyed by
session id (the file name stem). -/
structure SessionManager where
  sessions : List (String × ResearchSession)
  disk : List (String × SessionDict)
  deriving DecidableEq, Repr

/-- `SessionManager.get_session`. -/
def SessionManager.get_session (mgr : SessionManager) (session_id : String) :
    Option ResearchSession :=
  dictGet mgr.sessions session_id

/-- `SessionManager.save_session`: sets `updated_at` to now, writes the
JSON file, updates the in-memory cache. -/
def SessionManager.save_session (mgr : SessionManager)
    (session : ResearchSession) (now : String) : SessionManager :=
  let s := { session with updated_at := now }
  { sessions := dictSet mgr.sessions s.session_id s
    disk := dictSet mgr.disk s.session_id s.to_dict }

/-- `SessionManager.load_session`: reads the JSON file and rebuilds the
session (`None` if the file does not exist). -/
def SessionManager.load_session (mgr : SessionManager) (session_id : String) :
    Option ResearchSession :=
  (dictGet mgr.disk session_id).map ResearchSession.from_dict

/-- `SessionManager._load_sessions` on a fresh manager: a restart rebuilds
the in-memory cache from every JSON file on disk. -/
def SessionManager.restart (disk : List (String × SessionDict)) :
    SessionManager :=
  { sessions := disk.map (fun kv => (kv.1, ResearchSession.from_dict kv.2))
    disk := disk }

/-- `SessionManager.create_session`: unconditionally builds a fresh
session (no duplicate-id check), stores it, saves it, returns it.
`now` is the `datetime.now()` of `create_session`, `now2` the one inside
`save_session`; the returned session is the saved object, so its
`updated_at` is `now2`. -/
def SessionManager.create_session (mgr : SessionManager)
    (session_id query : String) (config : Option Dict) (now now2 : String) :
    SessionManager × ResearchSession :=
  let session : ResearchSession :=
    { session_id := session_id
      query := query
      status := "running"
      stage := "initializing"
      created_at := now
      updated_at := now
      papers_found := 0
      papers_analyzed := 0
      current_paper_index := 0
      search_results := none
      analyzed_papers := []
      drug_interactions := none
      synthesis_results := none
      report := none
      config := some (config.getD []) }
  let mgr1 : SessionManager :=
    { mgr with sessions := dictSet mgr.sessions session_id session }
  (mgr1.save_session session now2, { session with updated_at := now2 })

/-- `SessionManager.pause_session`: `False` (and no mutation) unless the
session exists with status `running`; otherwise sets `paused`, saves,
returns `True`. -/
def SessionManager.pause_session (mgr : SessionManager) (session_id : String)
    (now now2 : String) : SessionManager × Bool :=
  match mgr.get_session session_id with
  | none => (mgr, false)
  | some s =>
    if s.status ≠ "running" then (mgr, false)
    else
      let s1 := { s with status := "paused", updated_at := now }
      (mgr.save_session s1 now2, true)

/-- `SessionManager.resume_session`: `None` (and no mutation) unless the
session exists with status `paused`; otherwise sets `running`, saves,
returns the session. -/
def SessionManager.resume_session (mgr : SessionManager) (session_id : String)
    (now now2 : String) : SessionManager × Option ResearchSession :=
  match mgr.get_session session_id with
  | none => (mgr, none)
  | some s =>
    if s.status ≠ "paused" then (mgr, none)
    else
      let s1 := { s with status := "running", updated_at := now }
      (mgr.save_session s1 now2, some { s1 with updated_at := now2 })

/-- `SessionManager.complete_session`: whenever the session exists —
whatever its current status — sets status and stage to `completed` and
saves. -/
def SessionManager.complete_session (mgr : SessionManager)
    (session_id : String) (now : String) : SessionManager :=
  match mgr.get_session session_id with
  | none => mgr
  | some s =>
    mgr.save_session { s with status := "completed", stage := "completed" } now

/-- `SessionManager.fail_session`: whenever the session exists — whatever
its current status — sets status `failed`, stage `failed: <error>`, and
saves. -/
def SessionManager.fail_session (mgr : SessionManager) (session_id : String)
    (error : String) (now : String) : SessionManager :=
  match mgr.get_session session_id with
  | none => mgr
  | some s =>
    mgr.save_session
      { s with status := "failed", stage := "failed: " ++ error } now

/-- `SessionManager.update_progress`: silently returns if the session
does not exist; otherwise overwrites exactly the supplied fields and
saves (which refreshes `updated_at`). -/
def SessionManager.update_progress (mgr : SessionManager)
    (session_id : String) (stage : Option String)
    (papers_found papers_analyzed current_paper_index : Option Int)
    (now : String) : SessionManager :=
  match mgr.get_session session_id with
  | none => mgr
  | some s =>
    let s1 := match stage with
      | some v => { s with stage := v }
      | none => s
    let s2 := match papers_found with
      | some v => { s1 with papers_found := v }
      | none => s1
    let s3 := match papers_analyzed with
      | some v => { s2 with papers_analyzed := v }
      | none => s2
    let s4 := match current_paper_index with
      | some v => { s3 with current_paper_index := v }
      | none => s3
    mgr.save_session s4 now

/-- `MessageType` enum (a2a_protocol.py). -/
inductive MessageType where
  | research_request
  | research_results
  | status_update
  | error
  | validation_request
  | validation_response
  deriving DecidableEq, Repr

/-- `MessagePriority` enum. -/
inductive MessagePriority where
  | low
  | normal
  | high
  | urgent
  deriving DecidableEq, Repr

/-- `A2AMessage` dataclass. -/
structure A2AMessage where
  message_id : String
  sender : String
  receiver : String
  message_type : MessageType
  priority : MessagePriority
  payload : Dict
  timestamp : String
  correlation_id : Option String
  timeout_seconds : Int
  deriving DecidableEq, Repr

/-- `ResearchCoordinationProtocol` state: the FIFO `asyncio.Queue` and
the traffic log.  The handler registry and `pending_responses` (never
written by the code) play no part in any claim and are omitted. -/
structure ResearchCoordinationProtocol where
  message_queue : List A2AMessage
  message_log : List A2AMessage
  deriving DecidableEq, Repr

/-- The correlation fixup `send_message` performs on the message object:
when `correlation_id` is unset and the type is request-like, the
message's own id becomes its correlation id; otherwise nothing. -/
def sendFix (m : A2AMessage) : A2AMessage :=
  if m.correlation_id = none ∧
      (m.message_type = MessageType.research_request ∨
       m.message_type = MessageType.validation_request) then
    { m with correlation_id := some m.message_id }
  else m

/-- `ResearchCoordinationProtocol.send_message`: appends the message to
the log, enqueues it, applies the correlation fixup (the log entry, the
queue entry and the sender's message are one shared object, so all three
carry the fixup), and returns the message id. -/
def ResearchCoordinationProtocol.send_message
    (p : ResearchCoordinationProtocol) (m : A2AMessage) :
    ResearchCoordinationProtocol × String :=
  let m1 := sendFix m
  ({ message_log := p.message_log ++ [m1]
     message_queue := p.message_queue ++ [m1] }, m.message_id)

/-- `ResearchCoordinationProtocol.receive_message`: pops the front of
the FIFO queue; `None` when a timeout elapses with the queue empty. -/
def ResearchCoordinationProtocol.receive_message
    (p : ResearchCoordinationProtocol) :
    Option A2AMessage × ResearchCoordinationProtocol :=
  match p.message_queue with
  | [] => (none, p)
  | m :: rest => (some m, { p with message_queue := rest })

/-- `ResearchCoordinationProtocol.wait_for_response`: repeatedly
receives (1-second receive timeouts) until a message whose
`correlation_id` equals the target arrives or the overall timeout
elapses; non-matching messages are dropped, not re-queued.  The
wall-clock timeout budget is modelled as `fuel`, the number of loop
iterations still allowed. -/
def ResearchCoordinationProtocol.wait_for_response
    (p : ResearchCoordinationProtocol) (correlation_id : String)
    (fuel : Nat) : Option A2AMessage × ResearchCoordinationProtocol :=
  match fuel with
  | 0 => (none, p)
  | Nat.succ fuel1 =>
    match p.receive_message with
    | (none, p1) => p1.wait_for_response correlation_id fuel1
    | (some m, p1) =>
      if m.correlation_id = some correlation_id then (some m, p1)
      else p1.wait_for_response correlation_id fuel1

/-- Python truthiness of an `Optional[str]` filter argument: `None` and
`""` are both falsy, so neither triggers filtering. -/
def strTruthy (o : Option String) : Bool :=
  o.getD "" ≠ ""

/-- The sender/receiver filtering stage of `get_message_log`. -/
def logFilter (log : List A2AMessage) (sender receiver : Option String) :
    List A2AMessage :=
  let ms := if strTruthy sender then
      log.filter (fun m => m.sender = sender.getD "") else log
  if strTruthy receiver then
    ms.filter (fun m => m.receiver = receiver.getD "") else ms

/-- Python `messages[-limit:]` for a non-negative `limit`: `-0 == 0`, so
`limit = 0` yields the whole list; otherwise the last `limit` entries. -/
def pySliceLast {α : Type} (l : List α) (limit : Nat) : List α :=
  if limit = 0 then l else l.drop (l.length - limit)

/-- `ResearchCoordinationProtocol.get_message_log`: optional
sender/receiver filters, then the `[-limit:]` slice. -/
def ResearchCoordinationProtocol.get_message_log
    (p : ResearchCoordinationProtocol) (sender receiver : Option String)
    (limit : Nat) : List A2AMessage :=
  pySliceLast (logFilter p.message_log sender receiver) limit

/-! ### Helper lemmas -/

theorem dictGet_dictSet_self {α : Type} (l : List (String × α)) (k : String)
    (v : α) : dictGet (dictSet l k v) k = some v := by
  induction l with
  | nil => simp [dictSet, dictGet]
  | cons kv rest ih =>
    by_cases h : kv.1 = k
    · simp [dictSet, dictGet, h]
    · simp [dictSet, dictGet, h, ih]

theorem from_dict_to_dict (s : ResearchSession) :
    ResearchSession.from_dict s.to_dict = s := by
  rfl

theorem get_session_save_session (mgr : SessionManager)
    (s : ResearchSession) (now : String) :
    (mgr.save_session s now).get_session s.session_id =
      some { s with updated_at := now } := by
  simp [SessionManager.save_session, SessionManager.get_session,
    dictGet_dictSet_self]

theorem load_session_save_session (mgr : SessionManager)
    (s : ResearchSession) (now : String) :
    (mgr.save_session s now).load_session s.session_id =
      some { s with updated_at := now } := by
  simp [SessionManager.save_session, SessionManager.load_session,
    dictGet_dictSet_self, from_dict_to_dict]

/-! ### Concrete sample states used by counterexamples and witnesses -/

/-- A paused session mid-search, with some progress recorded. -/
def pausedSample : ResearchSession :=
  { session_id := "s"
    query := "q"
    status := "paused"
    stage := "searching"
    created_at := "t0"
    updated_at := "t0"
    papers_found := 7
    papers_analyzed := 3
    current_paper_index := 2
    search_results := none
    analyzed_papers := []
    drug_interactions := none
    synthesis_results := none
    report := none
    config := none }

/-- A failed session. -/
def failedSample : ResearchSession :=
  { pausedSample with status := "failed", stage := "failed: boom" }

/-- A completed session. -/
def completedSample : ResearchSession :=
  { pausedSample with status := "completed", stage := "completed" }

/-- A running session. -/
def runningSample : ResearchSession :=
  { pausedSample with status := "running" }

/-- A one-session manager. -/
def mgrWith (s : ResearchSession) : SessionManager :=
  { sessions := [(s.session_id, s)], disk := [(s.session_id, s.to_dict)] }

/-! ### Claims -/

/-- C1, counterexample.  A manager holds a paused session `"s"` with
stage `"searching"`; `create_session "s" ...` does not fail — it builds
and persists a fresh running, initializing replacement, so the existing
session is not left unchanged. -/
theorem create_session_overwrites_counterexample :
    pausedSample.status = "paused" ∧ pausedSample.papers_found = 7 ∧
    (((mgrWith pausedSample).create_session "s" "q2" none "t1"
        "t2").1.get_session "s").map (fun s => s.status) = some "running" ∧
    (((mgrWith pausedSample).create_session "s" "q2" none "t1"
        "t2").1.get_session "s").map (fun s => s.papers_found) = some 0 ∧
    (((mgrWith pausedSample).create_session "s" "q2" none "t1"
        "t2").1.load_session "s").map (fun s => s.status) =
      some "running" := by
  exact ⟨rfl, rfl, rfl, rfl, rfl⟩

/-- C1, amended.  `create(S, query, config)` never fails: in every
state, also when a session with id `S` already exists, it builds a fresh
session with `status = running`, `stage = "initializing"`, timestamps
set to now, persists it under `S` — replacing any previous record both
in memory and on disk — and returns it. -/
theorem create_session_always_replaces (mgr : SessionManager)
    (sid q : String) (config : Option Dict) (now now2 : String) :
    (mgr.create_session sid q config now now2).2.status = "running" ∧
    (mgr.create_session sid q config now now2).2.stage = "initializing" ∧
    (mgr.create_session sid q config now now2).2.created_at = now ∧
    (mgr.create_session sid q config now now2).1.get_session sid =
      some (mgr.create_session sid q config now now2).2 ∧
    (mgr.create_session sid q config now now2).1.load_session sid =
      some (mgr.create_session sid q config now now2).2 := by
  refine ⟨rfl, rfl, rfl, ?_, ?_⟩
  · exact get_session_save_session _ _ _
  · exact load_session_save_session _ _ _

theorem get_session_save_session_key (mgr : SessionManager)
    (s : ResearchSession) (now k : String) (hk : s.session_id = k) :
    (mgr.save_session s now).get_session k =
      some { s with updated_at := now } := by
  subst hk
  exact get_session_save_session mgr s now

/-- C2, counterexample.  A session whose status is `failed` is not
terminal: `complete_session` moves it to `completed` (and symmetrically
`fail_session` moves a `completed` session to `failed`). -/
theorem terminal_status_counterexample :
    failedSample.status = "failed" ∧
    ((((mgrWith failedSample).complete_session "s" "t1").get_session
        "s").map (fun x => x.status) = some "completed") ∧
    completedSample.status = "completed" ∧
    ((((mgrWith completedSample).fail_session "s" "oops" "t1").get_session
        "s").map (fun x => x.status) = some "failed") := by
  exact ⟨rfl, rfl, rfl, rfl⟩

/-- C2, amended.  `pause`, `resume` and `updateProgress` indeed never
move a session out of a terminal (`completed`/`failed`) status — the
first two fail their guards and the third never touches `status` — but
`complete` and `fail` set the status unconditionally on any existing
session: `complete` on a `failed` session makes it `completed`, and
`fail` on a `completed` session makes it `failed`. -/
theorem terminal_status_amended (mgr : SessionManager) (sid : String)
    (s : ResearchSession) (h : mgr.get_session sid = some s)
    (hid : s.session_id = sid) :
    (∀ n1 n2, s.status ≠ "running" →
      mgr.pause_session sid n1 n2 = (mgr, false)) ∧
    (∀ n1 n2, s.status ≠ "paused" →
      mgr.resume_session sid n1 n2 = (mgr, none)) ∧
    (∀ st pf pa cpi now,
      ((mgr.update_progress sid st pf pa cpi now).get_session sid).map
        (fun x => x.status) = some s.status) ∧
    (∀ now, ((mgr.complete_session sid now).get_session sid).map
        (fun x => x.status) = some "completed") ∧
    (∀ e now, ((mgr.fail_session sid e now).get_session sid).map
        (fun x => x.status) = some "failed") := by
  refine ⟨?_, ?_, ?_, ?_, ?_⟩
  · intro n1 n2 hs
    simp [SessionManager.pause_session, h, hs]
  · intro n1 n2 hs
    simp [SessionManager.resume_session, h, hs]
  · intro st pf pa cpi now
    cases st <;> cases pf <;> cases pa <;> cases cpi <;>
      simp [SessionManager.update_progress, h] <;>
      rw [get_session_save_session_key _ _ _ _ (by simp [hid])] <;> simp
  · intro now
    simp [SessionManager.complete_session, h]
    rw [get_session_save_session_key _ _ _ _ (by simp [hid])]
    simp
  · intro e now
    simp [SessionManager.fail_session, h]
    rw [get_session_save_session_key _ _ _ _ (by simp [hid])]
    simp

/-- C2 amended, witness at a concrete failed session. -/
theorem terminal_status_amended_witness :
    (mgrWith failedSample).pause_session "s" "t1" "t2" =
      (mgrWith failedSample, false) := by
  exact (terminal_status_amended (mgrWith failedSample) "s" failedSample
    rfl rfl).1 "t1" "t2" (by decide)

theorem sendFix_only_correlation (m : A2AMessage) :
    sendFix m = { m with correlation_id := (sendFix m).correlation_id } := by
  simp only [sendFix]
  split <;> rfl

/-- C3, confirmed.  Sending `m1, m2, m3` in that order to a protocol
whose queue is empty and then receiving three times yields the three
messages in send order, whatever their priorities; each is the sender's
own message (only its `correlation_id` may have been filled in by
`send_message`, see `sendFix_only_correlation`). -/
theorem fifo_delivery (m1 m2 m3 : A2AMessage) (log : List A2AMessage) :
    (((((ResearchCoordinationProtocol.mk [] log).send_message
          m1).1.send_message m2).1.send_message
          m3).1.receive_message).1 = some (sendFix m1) ∧
    ((((((ResearchCoordinationProtocol.mk [] log).send_message
          m1).1.send_message m2).1.send_message
          m3).1.receive_message).2.receive_message).1 = some (sendFix m2) ∧
    (((((((ResearchCoordinationProtocol.mk [] log).send_message
          m1).1.send_message m2).1.send_message
          m3).1.receive_message).2.receive_message).2.receive_message).1 =
      some (sendFix m3) ∧
    (sendFix m1).priority = m1.priority ∧
    (sendFix m2).priority = m2.priority ∧
    (sendFix m3).priority = m3.priority := by
  refine ⟨rfl, rfl, rfl, ?_, ?_, ?_⟩ <;>
    · rw [sendFix_only_correlation]

/-- C4, confirmed.  `send_message` returns the message id; when
`correlation_id` is unset and the type is request-like it becomes the
message's own id — on the sender's message, on the log entry and on the
queued copy alike — and in every other case the message is sent
untouched; with an empty queue the next `receive` delivers exactly the
fixed-up message. -/
theorem send_correlation (p : ResearchCoordinationProtocol)
    (m : A2AMessage) :
    (p.send_message m).2 = m.message_id ∧
    (m.correlation_id = none →
      (m.message_type = MessageType.research_request ∨
       m.message_type = MessageType.validation_request) →
      (p.send_message m).1.message_log.getLast? =
          some { m with correlation_id := some m.message_id } ∧
        (p.send_message m).1.message_queue.getLast? =
          some { m with correlation_id := some m.message_id }) ∧
    (m.correlation_id ≠ none ∨
      (m.message_type ≠ MessageType.research_request ∧
       m.message_type ≠ MessageType.validation_request) →
      (p.send_message m).1.message_log.getLast? = some m ∧
        (p.send_message m).1.message_queue.getLast? = some m) ∧
    (p.message_queue = [] →
      ((p.send_message m).1.receive_message).1 = some (sendFix m)) := by
  refine ⟨rfl, ?_, ?_, ?_⟩
  · intro hc ht
    have hfix : sendFix m = { m with correlation_id := some m.message_id } :=
      by simp [sendFix, hc, ht]
    constructor <;> simp [ResearchCoordinationProtocol.send_message, hfix]
  · intro h
    have hfix : sendFix m = m := by
      rcases h with h | h
      · simp [sendFix, h]
      · simp [sendFix, h.1, h.2]
    constructor <;> simp [ResearchCoordinationProtocol.send_message, hfix]
  · intro hq
    simp [ResearchCoordinationProtocol.send_message,
      ResearchCoordinationProtocol.receive_message, hq]

/-- A research request with no correlation id, for the C4 witness. -/
def reqSample : A2AMessage :=
  { message_id := "id1"
    sender := "coordinator"
    receiver := "pubmed_search_agent"
    message_type := MessageType.research_request
    priority := MessagePriority.high
    payload := [("query", "aspirin")]
    timestamp := "t0"
    correlation_id := none
    timeout_seconds := 300 }

/-- C4 witness: the concrete request's log entry carries its own id as
correlation id after sending. -/
theorem send_correlation_witness :
    ((ResearchCoordinationProtocol.mk [] []).send_message
        reqSample).1.message_log.getLast? =
      some { reqSample with correlation_id := some "id1" } := by
  exact ((send_correlation (ResearchCoordinationProtocol.mk [] [])
    reqSample).2.1 rfl (Or.inl rfl)).1

theorem load_session_save_session_key (mgr : SessionManager)
    (s : ResearchSession) (now k : String) (hk : s.session_id = k) :
    (mgr.save_session s now).load_session k =
      some { s with updated_at := now } := by
  subst hk
  exact load_session_save_session mgr s now

theorem pause_session_none (mgr : SessionManager) (sid n1 n2 : String)
    (h : mgr.get_session sid = none) :
    mgr.pause_session sid n1 n2 = (mgr, false) := by
  simp [SessionManager.pause_session, h]

theorem pause_session_not_running (mgr : SessionManager)
    (sid n1 n2 : String) (s : ResearchSession)
    (h : mgr.get_session sid = some s) (hst : s.status ≠ "running") :
    mgr.pause_session sid n1 n2 = (mgr, false) := by
  simp only [SessionManager.pause_session, h]
  rw [if_pos hst]

theorem pause_session_running (mgr : SessionManager) (sid n1 n2 : String)
    (s : ResearchSession) (h : mgr.get_session sid = some s)
    (hst : s.status = "running") :
    mgr.pause_session sid n1 n2 =
      (mgr.save_session { s with status := "paused", updated_at := n1 } n2,
        true) := by
  simp only [SessionManager.pause_session, h]
  rw [if_neg (by simp [hst])]

/-- C5, confirmed.  `pause` succeeds exactly when the session exists
with status `running`; on success the stored session becomes `paused`
(timestamp refreshed, persisted); on failure nothing is mutated; and
pausing twice in a row succeeds once and fails the second time. -/
theorem pause_guard (mgr : SessionManager) (sid n1 n2 : String) :
    ((mgr.pause_session sid n1 n2).2 = true ↔
      ∃ s, mgr.get_session sid = some s ∧ s.status = "running") ∧
    (∀ s, mgr.get_session sid = some s → s.status = "running" →
      s.session_id = sid →
      (mgr.pause_session sid n1 n2).1.get_session sid =
        some { s with status := "paused", updated_at := n2 }) ∧
    ((mgr.pause_session sid n1 n2).2 = false →
      (mgr.pause_session sid n1 n2).1 = mgr) ∧
    (∀ s, mgr.get_session sid = some s → s.status = "running" →
      s.session_id = sid → ∀ n3 n4,
      ((mgr.pause_session sid n1 n2).1.pause_session sid n3 n4).2 =
        false) := by
  refine ⟨?_, ?_, ?_, ?_⟩
  · constructor
    · intro hb
      cases h : mgr.get_session sid with
      | none => rw [pause_session_none mgr sid n1 n2 h] at hb; cases hb
      | some s =>
        by_cases hst : s.status = "running"
        · exact ⟨s, rfl, hst⟩
        · rw [pause_session_not_running mgr sid n1 n2 s h hst] at hb
          cases hb
    · rintro ⟨s, h, hst⟩
      rw [pause_session_running mgr sid n1 n2 s h hst]
  · intro s h hst hid
    rw [pause_session_running mgr sid n1 n2 s h hst]
    exact get_session_save_session_key _ _ _ _ (by simp [hid])
  · intro hb
    cases h : mgr.get_session sid with
    | none => rw [pause_session_none mgr sid n1 n2 h]
    | some s =>
      by_cases hst : s.status = "running"
      · rw [pause_session_running mgr sid n1 n2 s h hst] at hb
        cases hb
      · rw [pause_session_not_running mgr sid n1 n2 s h hst]
  · intro s h hst hid n3 n4
    have h2 : (mgr.pause_session sid n1 n2).1.get_session sid =
        some { s with status := "paused", updated_at := n2 } := by
      rw [pause_session_running mgr sid n1 n2 s h hst]
      exact get_session_save_session_key _ _ _ _ (by simp [hid])
    rw [pause_session_not_running _ sid n3 n4 _ h2 (by simp)]

/-- C5 witness: on a concrete running session, the first `pause`
succeeds and stores the paused session, the second fails. -/
theorem pause_guard_witness :
    ((mgrWith runningSample).pause_session "s" "t1" "t2").2 = true ∧
    ((mgrWith runningSample).pause_session "s" "t1"
        "t2").1.get_session "s" =
      some { runningSample with status := "paused", updated_at := "t2" } ∧
    (((mgrWith runningSample).pause_session "s" "t1"
        "t2").1.pause_session "s" "t3" "t4").2 = false := by
  refine ⟨?_, ?_, ?_⟩
  · exact (pause_guard (mgrWith runningSample) "s" "t1" "t2").1.mpr
      ⟨runningSample, rfl, rfl⟩
  · exact (pause_guard (mgrWith runningSample) "s" "t1" "t2").2.1
      runningSample rfl rfl rfl
  · exact (pause_guard (mgrWith runningSample) "s" "t1" "t2").2.2.2
      runningSample rfl rfl rfl "t3" "t4"

/-- C6, confirmed.  `updateProgress` with only a `stage` argument
changes exactly `stage` (plus the `updated_at` refresh done by the
save), leaving every other field of the session intact, in memory and
on disk; when the session does not exist the call returns the state
unchanged rather than raising. -/
theorem update_progress_frame (mgr : SessionManager) (sid : String) :
    (∀ s st now, mgr.get_session sid = some s → s.session_id = sid →
      (mgr.update_progress sid (some st) none none none
          now).get_session sid =
        some { s with stage := st, updated_at := now } ∧
      (mgr.update_progress sid (some st) none none none
          now).load_session sid =
        some { s with stage := st, updated_at := now }) ∧
    (∀ st pf pa cpi now, mgr.get_session sid = none →
      mgr.update_progress sid st pf pa cpi now = mgr) := by
  constructor
  · intro s st now h hid
    constructor
    · simp only [SessionManager.update_progress, h]
      exact get_session_save_session_key _ _ _ _ (by simp [hid])
    · simp only [SessionManager.update_progress, h]
      exact load_session_save_session_key _ _ _ _ (by simp [hid])
  · intro st pf pa cpi now h
    simp [SessionManager.update_progress, h]

/-- C6 witness: stage-only update on a concrete paused session. -/
theorem update_progress_frame_witness :
    ((mgrWith pausedSample).update_progress "s" (some "analyzing") none
        none none "t5").get_session "s" =
      some { pausedSample with stage := "analyzing", updated_at := "t5" }
    := by
  exact ((update_progress_frame (mgrWith pausedSample) "s").1
    pausedSample "analyzing" "t5" rfl rfl).1

theorem dictGet_map {α β : Type} (l : List (String × α)) (f : α → β)
    (k : String) :
    dictGet (l.map (fun kv => (kv.1, f kv.2))) k = (dictGet l k).map f := by
  induction l with
  | nil => simp [dictGet]
  | cons kv rest ih =>
    by_cases h : kv.1 = k
    · simp [dictGet, h]
    · simp [dictGet, h, ih]

/-- C7, confirmed.  Serialisation is lossless: `from_dict ∘ to_dict` is
the identity on sessions; saving a session and reading its file back —
directly or through a full restart that rebuilds the manager from disk —
returns a record equal in every field to the one written (with the
`updated_at` refresh the save itself performs); and a stored dictionary
with all optional keys absent deserialises to the defaults
(`0` counters, empty `analyzed_papers`, `None` blobs) instead of
raising. -/
theorem session_roundtrip :
    (∀ s : ResearchSession, ResearchSession.from_dict s.to_dict = s) ∧
    (∀ (mgr : SessionManager) (s : ResearchSession) (now : String),
      (mgr.save_session s now).load_session s.session_id =
        some { s with updated_at := now }) ∧
    (∀ (mgr : SessionManager) (s : ResearchSession) (now : String),
      (SessionManager.restart
          (mgr.save_session s now).disk).get_session s.session_id =
        some { s with updated_at := now }) ∧
    (∀ sid q st stg ca ua, ResearchSession.from_dict
        ⟨sid, q, st, stg, ca, ua, none, none, none, none, none, none,
          none, none, none⟩ =
      ⟨sid, q, st, stg, ca, ua, 0, 0, 0, none, [], none, none, none,
        none⟩) := by
  refine ⟨from_dict_to_dict, load_session_save_session, ?_,
    fun sid q st stg ca ua => rfl⟩
  intro mgr s now
  show dictGet ((dictSet mgr.disk _ _).map
    (fun kv => (kv.1, ResearchSession.from_dict kv.2))) _ = _
  rw [dictGet_map, dictGet_dictSet_self]
  rfl

/-- C8, confirmed.  If the queue holds some messages whose
`correlation_id` differs from the target, followed by a matching
message `m` and then a tail `post`, then `wait_for_response` (given a
large enough timeout budget) returns `m` and leaves exactly `post`
queued: the non-matching messages it consumed are discarded, not
re-queued, so subsequent receives can never return them. -/
theorem wait_for_response_discards (cid : String) :
    ∀ (pre : List A2AMessage) (fuel : Nat) (m : A2AMessage)
      (post log : List A2AMessage),
      (∀ m', m' ∈ pre → m'.correlation_id ≠ some cid) →
      m.correlation_id = some cid →
      pre.length < fuel →
      ResearchCoordinationProtocol.wait_for_response
          ⟨pre ++ m :: post, log⟩ cid fuel =
        (some m, ⟨post, log⟩) := by
  intro pre
  induction pre with
  | nil =>
    intro fuel m post log hpre hm hf
    cases fuel with
    | zero => cases hf
    | succ f =>
      simp [ResearchCoordinationProtocol.wait_for_response,
        ResearchCoordinationProtocol.receive_message, hm]
  | cons a rest ih =>
    intro fuel m post log hpre hm hf
    cases fuel with
    | zero => cases hf
    | succ f =>
      have ha : a.correlation_id ≠ some cid := hpre a (by simp)
      simp only [List.cons_append,
        ResearchCoordinationProtocol.wait_for_response,
        ResearchCoordinationProtocol.receive_message]
      rw [if_neg ha]
      exact ih f m post log (fun m' hm' => hpre m' (by simp [hm'])) hm
        (by simpa using hf)

/-- Messages used by the C8 and C9 witnesses. -/
def otherSampleA : A2AMessage :=
  { reqSample with message_id := "id2", correlation_id := some "other" }

def otherSampleB : A2AMessage :=
  { reqSample with
    message_id := "id3"
    message_type := MessageType.status_update }

def matchSample : A2AMessage :=
  { reqSample with
    message_id := "id4"
    message_type := MessageType.research_results
    correlation_id := some "X" }

/-- C8 witness: with two non-matching messages ahead of the matching
one, `wait_for_response` returns the match and drops the first two. -/
theorem wait_for_response_discards_witness :
    ResearchCoordinationProtocol.wait_for_response
        ⟨[otherSampleA, otherSampleB, matchSample], []⟩ "X" 10 =
      (some matchSample, ⟨[], []⟩) := by
  exact wait_for_response_discards "X" [otherSampleA, otherSampleB] 10
    matchSample [] [] (by decide) (by decide) (by decide)

/-- C9, confirmed.  `get_message_log` with `limit = 0` returns the whole
(filtered) log — the Python slice `[-0:]` selects everything — while for
`limit > 0` it returns the most recent at-most-`limit` entries of the
filtered log, oldest first (a suffix of the filtered log of length
`min limit length`). -/
theorem get_message_log_limit (p : ResearchCoordinationProtocol)
    (sender receiver : Option String) :
    p.get_message_log sender receiver 0 =
      logFilter p.message_log sender receiver ∧
    (∀ limit, 0 < limit →
      (p.get_message_log sender receiver limit).length =
        min limit (logFilter p.message_log sender receiver).length ∧
      (p.get_message_log sender receiver limit).IsSuffix
        (logFilter p.message_log sender receiver)) := by
  constructor
  · simp [ResearchCoordinationProtocol.get_message_log, pySliceLast]
  · intro limit hl
    constructor
    · simp only [ResearchCoordinationProtocol.get_message_log,
        pySliceLast, if_neg hl.ne']
      rw [List.length_drop]
      omega
    · simp only [ResearchCoordinationProtocol.get_message_log,
        pySliceLast, if_neg hl.ne']
      exact List.drop_suffix _ _

/-- C9 witness: a three-message log with `limit = 2` yields the last
two entries, and with `limit = 0` the whole log. -/
theorem get_message_log_limit_witness :
    (ResearchCoordinationProtocol.get_message_log
        ⟨[], [otherSampleA, otherSampleB, matchSample]⟩ none none
        2).length = min 2 (logFilter [otherSampleA, otherSampleB,
          matchSample] none none).length ∧
    ResearchCoordinationProtocol.get_message_log
        ⟨[], [otherSampleA, otherSampleB, matchSample]⟩ none none 0 =
      logFilter [otherSampleA, otherSampleB, matchSample] none none := by
  constructor
  · exact ((get_message_log_limit
      ⟨[], [otherSampleA, otherSampleB, matchSample]⟩ none none).2 2
        (by decide)).1
  · exact (get_message_log_limit
      ⟨[], [otherSampleA, otherSampleB, matchSample]⟩ none none).1

/-- C10, confirmed.  The failure result of `pause` is the same value
(`False`, state untouched) whether the session is missing or merely not
`running`, and the failure result of `resume` is the same value
(`None`, state untouched) whether the session is missing or merely not
`paused`: callers cannot tell a NotFound from an InvalidTransition, and
the result carries nothing about the actual status. -/
theorem pause_resume_failure_values (mgr : SessionManager)
    (sid n1 n2 : String) :
    (mgr.get_session sid = none →
      mgr.pause_session sid n1 n2 = (mgr, false) ∧
      mgr.resume_session sid n1 n2 = (mgr, none)) ∧
    (∀ s, mgr.get_session sid = some s → s.status ≠ "running" →
      mgr.pause_session sid n1 n2 = (mgr, false)) ∧
    (∀ s, mgr.get_session sid = some s → s.status ≠ "paused" →
      mgr.resume_session sid n1 n2 = (mgr, none)) := by
  refine ⟨?_, ?_, ?_⟩
  · intro h
    exact ⟨pause_session_none mgr sid n1 n2 h,
      by simp [SessionManager.resume_session, h]⟩
  · exact fun s h hst => pause_session_not_running mgr sid n1 n2 s h hst
  · intro s h hst
    simp only [SessionManager.resume_session, h]
    rw [if_pos hst]

/-- C10 witness: the missing-session failure and the wrong-status
failure of `pause` (and of `resume`) are literally the same value. -/
theorem pause_resume_failure_values_witness :
    (mgrWith completedSample).pause_session "nope" "t1" "t2" =
      (mgrWith completedSample, false) ∧
    (mgrWith completedSample).pause_session "s" "t1" "t2" =
      (mgrWith completedSample, false) ∧
    (mgrWith completedSample).resume_session "nope" "t1" "t2" =
      (mgrWith completedSample, none) ∧
    (mgrWith completedSample).resume_session "s" "t1" "t2" =
      (mgrWith completedSample, none) := by
  refine ⟨?_, ?_, ?_, ?_⟩
  · exact ((pause_resume_failure_values (mgrWith completedSample) "nope"
      "t1" "t2").1 rfl).1
  · exact (pause_resume_failure_values (mgrWith completedSample) "s"
      "t1" "t2").2.1 completedSample rfl (by decide)
  · exact ((pause_resume_failure_values (mgrWith completedSample) "nope"
      "t1" "t2").1 rfl).2
  · exact (pause_resume_failure_values (mgrWith completedSample) "s"
      "t1" "t2").2.2 completedSample rfl (by decide)
